import Mathlib

/-!
Shallow embedding of the yr-data-store repository pieces exercised by the
claims: `src/lib/methods/remove.js` and `src/lib/methods/fetch.js`, together
with the store primitives those modules call (`get`/`set` from the store,
the `@yr/keys` path helpers, the store's expiry-key constant and the public
fetch entry point).  The latter group is not under `src/`, so those
definitions are modelled from the specification and marked as such.
Asynchronous control flow is embedded by making the outcome of the single
transport load an explicit parameter and recording, in a trace, whether the
load was issued and how many reloads were scheduled synchronously versus at
load-settlement time.
-/

namespace DataStore

/-- JavaScript values as stored in the data tree: `undefined`, `null`,
booleans, numbers (modelled as integers; the claims only exercise integral
timestamps), strings, arrays and plain objects (ordered field lists). -/
inductive JSVal where
  | undefined : JSVal
  | null : JSVal
  | bool : Bool → JSVal
  | num : Int → JSVal
  | str : String → JSVal
  | arr : List JSVal → JSVal
  | obj : List (String × JSVal) → JSVal

/-- Property read `fields[k]` on an object's field list: the first binding
for `k`, or `undefined` when absent. -/
def fieldGet : List (String × JSVal) → String → JSVal
  | [], _ => .undefined
  | (k, v) :: rest, s => if k = s then v else fieldGet rest s

/-- Membership of a key in an object's field list (a field explicitly bound
to `undefined` still counts as present, as with the JS `in` operator). -/
def fieldHas : List (String × JSVal) → String → Bool
  | [], _ => false
  | (k, _) :: rest, s => if k = s then true else fieldHas rest s

/-- Property assignment `fields[k] = v`: replaces the existing binding in
place, or appends a new one. -/
def fieldSet : List (String × JSVal) → String → JSVal → List (String × JSVal)
  | [], s, v => [(s, v)]
  | (k, w) :: rest, s, v =>
      if k = s then (k, v) :: rest else (k, w) :: fieldSet rest s v

/-- JavaScript truthiness: `undefined`, `null`, `false`, `0` and the empty
string are falsy; arrays and objects are always truthy. -/
def truthy : JSVal → Bool
  | .undefined => false
  | .null => false
  | .bool b => b
  | .num n => n != 0
  | .str s => !s.isEmpty
  | .arr _ => true
  | .obj _ => true

/-- The `is-plain-obj` package used by fetch.js: true exactly for plain
objects (arrays, `null` and primitives are not plain objects). -/
def isPlainObject : JSVal → Bool
  | .obj _ => true
  | _ => false

/-- JS ToNumber on the value shapes relevant to the expiry comparison:
numbers are themselves, `null` is 0, booleans are 0/1; `undefined` and
(plain) objects coerce to NaN, returned here as `none`.  Numeric coercion of
strings and single-element arrays is not modelled (no claim exercises it). -/
def toNumber : JSVal → Option Int
  | .num n => some n
  | .null => some 0
  | .bool b => some (if b then 1 else 0)
  | _ => none

/-- The JS comparison `a > v` with a number on the left: false whenever `v`
coerces to NaN (in particular whenever `v` is `undefined` or an object). -/
def jsGreater (a : Int) (v : JSVal) : Bool :=
  match toNumber v with
  | some b => decide (a > b)
  | none => false

/-- Property membership `k in v` for objects, as read by fetch.js. -/
def hasField : JSVal → String → Bool
  | .obj fs, k => fieldHas fs k
  | _, _ => false

/-- Property read `v[k]` for objects, as read by fetch.js. -/
def getField : JSVal → String → JSVal
  | .obj fs, k => fieldGet fs k
  | _, _ => .undefined

/-- Decimal parse of a character list, used for array-index segments (the
kernel-reducible counterpart of the string-to-number coercion JS applies to
index keys); `none` on any non-digit. -/
def parseNatAux : List Char → Nat → Option Nat
  | [], acc => some acc
  | c :: rest, acc =>
      if c.isDigit then parseNatAux rest (acc * 10 + (c.toNat - 48)) else none

/-- Array-index reading of a key segment: a nonempty all-digit segment. -/
def parseIndex (s : String) : Option Nat :=
  match s.data with
  | [] => none
  | cs => parseNatAux cs 0

/-- The JS `in` operator as used by remove.js: defined on objects and arrays
(for arrays, valid indices and the `length` property), a TypeError when the
right operand is a primitive. -/
def jsIn (k : String) : JSVal → Except String Bool
  | .obj fs => .ok (fieldHas fs k)
  | .arr xs =>
      .ok (match parseIndex k with
        | some i => decide (i < xs.length)
        | none => k = "length")
  | _ => .error "TypeError: cannot use the in operator on a primitive"

/-- Splitting of a character list at the path separator. -/
def splitSegsAux : List Char → List Char → List String
  | [], acc => [String.mk acc.reverse]
  | c :: rest, acc =>
      if c = '/' then String.mk acc.reverse :: splitSegsAux rest []
      else splitSegsAux rest (c :: acc)

/-- Modelled from the spec: KeyPath decomposition (§3 "Path": a string of
slash-separated segments).  The `@yr/keys` helpers consumed by remove.js
(`length`, `last`, `slice`) are not under src; they are modelled over this
decomposition, with empty segments (leading separator) dropped as in §4.2. -/
def segments (key : String) : List String :=
  (splitSegsAux key.data []).filter (fun s => s != "")

/-- Modelled from the spec: `keys.length(key)`, the number of segments. -/
def keysLength (key : String) : Nat := (segments key).length

/-- Modelled from the spec: `keys.last(key)`, the terminal segment. -/
def keysLast (key : String) : String := ((segments key).getLast?).getD ""

/-- Joining of segments with the path separator. -/
def joinSegs : List String → String
  | [] => ""
  | [s] => s
  | s :: rest => s ++ "/" ++ joinSegs rest

/-- Modelled from the spec: `keys.slice(key, 0, -1)`, every segment but the
last, rejoined with the separator. -/
def keysInit (key : String) : String :=
  joinSegs (segments key).dropLast

/-- Walk of the data tree along a segment list: mappings by key, sequences
by numeric index, `undefined` once the walk leaves the tree. -/
def getSegs : JSVal → List String → JSVal
  | v, [] => v
  | .obj fs, s :: rest => getSegs (fieldGet fs s) rest
  | .arr xs, s :: rest =>
      match parseIndex s with
      | some i => getSegs (xs.getD i .undefined) rest
      | none => .undefined
  | _, _ :: _ => .undefined

/-- Modelled from the spec: Store `get` (§4.2) restricted to reference-free
trees — the claims quantify only over plain data, and `src/lib/methods/get.js`
is not under src.  Omitting the path (empty key) returns the whole tree;
an absent location reads as `undefined`. -/
def get (data : JSVal) (key : String) : JSVal := getSegs data (segments key)

/-- Write of `v` along a segment list, creating intermediate mapping nodes
as needed (a non-mapping intermediate node is replaced by a fresh mapping,
per §4.2 "creating intermediate mapping nodes as needed"). -/
def setSegs : JSVal → List String → JSVal → JSVal
  | data, [], _ => data
  | data, s :: rest, v =>
      let fs := match data with
        | .obj fs => fs
        | _ => []
      match rest with
      | [] => .obj (fieldSet fs s v)
      | _ :: _ => .obj (fieldSet fs s (setSegs (fieldGet fs s) rest v))

/-- Modelled from the spec: Store `set` (§4.2, non-immutable mode, reference-
free trees): a no-op on an empty path, otherwise writes the value at the
path — `src/lib/methods/set.js` is not under src. -/
def set (data : JSVal) (key : String) (v : JSVal) : JSVal :=
  setSegs data (segments key) v

/-- The terminal key `k` computed by remove.js: the key itself for a
single-segment path, else its last segment. -/
def removeTerminal (key : String) : String :=
  if keysLength key == 1 then key else keysLast key

/-- The parent node `data` computed by remove.js: the root for a
single-segment path, else `get(store, keys.slice(key, 0, -1))`. -/
def removeParent (data : JSVal) (key : String) : JSVal :=
  if keysLength key == 1 then data else get data (keysInit key)

/-- `src/lib/methods/remove.js`: compute the terminal key and the parent
node; if the parent is truthy and contains the terminal key, call
`set(store, k, undefined)` — note that `k` is the terminal segment alone, so
the write happens at the root of the tree.  A `TypeError` from the `in`
operator (truthy primitive parent) propagates as an error. -/
def remove (data : JSVal) (key : String) : Except String JSVal :=
  let k := removeTerminal key
  let parent := removeParent data key
  if truthy parent then
    match jsIn k parent with
    | .ok true => .ok (set data k .undefined)
    | .ok false => .ok data
    | .error e => .error e
  else
    .ok data

/-- Modelled from the spec: the reserved expiry-record field name exposed by
the store object as `store.EXPIRES_KEY` (§6: the expiry-record field name is
a read-only property of the store; the store class is not under src).  The
concrete string is the reserved child key of §3's ExpiryRecord, pinned by
the repository tests to "__expiry". -/
def EXPIRES_KEY : String := "__expiry"

/-- `hasExpired` from src/lib/methods/fetch.js:
`obj && isPlainObject(obj) && expiresKey in obj && Date.now() > obj[expiresKey]`,
with `Date.now()` passed in as `now`. -/
def hasExpired (obj : JSVal) (expiresKey : String) (now : Int) : Bool :=
  truthy obj && isPlainObject obj && hasField obj expiresKey &&
    jsGreater now (getField obj expiresKey)

/-- The fetch options consulted by the fetch path (each a JS truthiness
test, modelled as a boolean). -/
structure FetchOptions where
  reload : Bool
  staleWhileRevalidate : Bool
  staleIfError : Bool
  rejectOnError : Bool

/-- Outcome of the single transport load issued by fetch.  `load` (from
src/lib/methods/load.js, not under src) is modelled by its settlement: on
success it has written the response body at the key, so the subsequent
`get(store, key)` is carried as `stored`; on failure it rejects with an
error whose `status` is carried. -/
inductive LoadOutcome where
  | success : Int → JSVal → JSVal → LoadOutcome
  | failure : Int → LoadOutcome

/-- The response object fetch resolves with.  The JS error object is
represented by its `status` field, the only part the code inspects. -/
structure FetchResponse where
  duration : Int
  error : Option Int
  headers : JSVal
  data : JSVal

/-- Settlement of the promise returned by fetch. -/
inductive FetchResult where
  | resolved : FetchResponse → FetchResult
  | rejected : Int → FetchResult

/-- Observable trace of one fetch call: whether the transport load was
issued, how many reloads were scheduled synchronously during the call
(line 62 of fetch.js) and how many were scheduled when the load settled
(lines 38 and 47). -/
structure FetchTrace where
  loadInvoked : Bool
  reloadSync : Nat
  reloadOnSettle : Nat

/-- The header object built by fetch.js, carrying only a status field. -/
def statusHeaders (s : Int) : JSVal := .obj [("status", .num s)]

/-- Whether the settled load schedules a reload when requested: the success
handler always does, the failure handler only for `err.status >= 500`. -/
def reloadEligible : LoadOutcome → Bool
  | .success _ _ _ => true
  | .failure s => decide (500 ≤ s)

/-- The response the load promise resolves with in fetch.js: on success the
load's duration and headers with `get(store, key)` as data; on failure
duration 0, the error, headers carrying the failure status, and as data the
previously read value when `staleIfError` is set, else `null`. -/
def loadResponse (value : JSVal) (staleIfError : Bool) :
    LoadOutcome → FetchResponse
  | .success d h stored => ⟨d, none, h, stored⟩
  | .failure s => ⟨0, some s, statusHeaders s, if staleIfError then value else .null⟩

/-- `fetch` from src/lib/methods/fetch.js.  `value` is `get(store, key)` at
call time and `now` is `Date.now()`.  If the value is missing (falsy) or
expired, the load is issued; unless a truthy value exists and
`staleWhileRevalidate` is set, the promise settles with the load's response.
Otherwise — and likewise on the fresh path — a reload is scheduled
synchronously when requested and the promise resolves at once with duration
0, headers carrying status 200, and the (possibly stale) value as data. -/
def fetch (value : JSVal) (now : Int) (opts : FetchOptions)
    (outcome : LoadOutcome) : FetchResult × FetchTrace :=
  let isMissingOrExpired := !truthy value || hasExpired value EXPIRES_KEY now
  if isMissingOrExpired then
    let settle : Nat := if opts.reload && reloadEligible outcome then 1 else 0
    if !(truthy value && opts.staleWhileRevalidate) then
      (.resolved (loadResponse value opts.staleIfError outcome), ⟨true, 0, settle⟩)
    else
      (.resolved ⟨0, none, statusHeaders 200, value⟩,
        ⟨true, if opts.reload then 1 else 0, settle⟩)
  else
    (.resolved ⟨0, none, statusHeaders 200, value⟩,
      ⟨false, if opts.reload then 1 else 0, 0⟩)

/-- The status 400 response with no data. -/
def badRequest : FetchResponse := ⟨0, none, statusHeaders 400, .undefined⟩

/-- Modelled from the spec: the repository's public fetch entry point around
src/lib/methods/fetch.js; the enclosing store code is not under src.  Two
behaviours live only there: (a) §4.4 item 4, "Missing key or missing url
resolves immediately with a status 400 response and no data — never
initiates a transport call"; (b) §4.4/§7, the promise is rejected instead of
resolved when the load failed and `options.rejectOnError` is true (a failed
load is recognisable by the `error` field of the resolved response). -/
def publicFetch (key url : Option String) (value : JSVal) (now : Int)
    (opts : FetchOptions) (outcome : LoadOutcome) : FetchResult × FetchTrace :=
  match key, url with
  | some _, some _ =>
      let res := fetch value now opts outcome
      if opts.rejectOnError then
        match res.1 with
        | .resolved r =>
            match r.error with
            | some s => (.rejected s, res.2)
            | none => res
        | .rejected s => (.rejected s, res.2)
      else res
  | _, _ => (.resolved badRequest, ⟨false, 0, 0⟩)

/-- Total number of reload schedulings observed for one fetch call. -/
def totalReloads (t : FetchTrace) : Nat := t.reloadSync + t.reloadOnSettle

/-- Data tree exercising remove on a nested path: a root key "bar" lives
next to a nested "foo/bar". -/
def c1Tree : JSVal := .obj [("bar", .num 2), ("foo", .obj [("bar", .num 1)])]

/-- The tree remove.js actually produces from `c1Tree` for key "foo/bar". -/
def c1After : JSVal := .obj [("bar", .undefined), ("foo", .obj [("bar", .num 1)])]

/-- Tree whose "foo" object does not contain the key "baz". -/
def c8Tree : JSVal := .obj [("foo", .obj [("bar", .num 1)])]

/-- A stored value carrying the ExpiryRecord of §3 at the reserved key: an
object with expires and expiresIfError timestamps. -/
def c3Value : JSVal :=
  .obj [("bar", .str "x"),
        (EXPIRES_KEY, .obj [("expires", .num 0), ("expiresIfError", .num 0)])]

/-- A stored value the code does treat as stale at time 100: the expiry
field holds a bare timestamp rather than a record object. -/
def staleValue : JSVal := .obj [("bar", .str "x"), (EXPIRES_KEY, .num 5)]

/-- A record-free, hence permanently fresh, stored value. -/
def freshValue : JSVal := .obj [("bar", .str "x")]

theorem truthy_of_hasExpired (v : JSVal) (k : String) (n : Int)
    (h : hasExpired v k n = true) : truthy v = true := by
  unfold hasExpired at h
  simp only [Bool.and_eq_true] at h
  exact h.1.1.1

/-- C1: code bug in remove.js — for a nested path it calls set with the
terminal segment alone, writing at the root instead of the parent, so it is
not equivalent to `set(path, undefined)`: on `c1Tree`, removing "foo/bar"
leaves "foo/bar" bound to 1 and instead clears the unrelated root key
"bar", whereas `set("foo/bar", undefined)` makes a get of "foo/bar" return
undefined.  This theorem evaluates the code at the failing input. -/
theorem remove_nested_path_hits_root :
    remove c1Tree "foo/bar" = .ok c1After ∧
    get c1After "foo/bar" = .num 1 ∧
    get c1After "bar" = .undefined ∧
    get (set c1Tree "foo/bar" .undefined) "foo/bar" = .undefined :=
  ⟨rfl, rfl, rfl, rfl⟩

/-- C8: when the parent node remove.js computes is absent (or otherwise
falsy), or is an object or array that does not contain the terminal key,
remove raises no error and returns the data tree unchanged. -/
theorem remove_absent_key_noop (data : JSVal) (key : String)
    (h : truthy (removeParent data key) = false ∨
      jsIn (removeTerminal key) (removeParent data key) = Except.ok false) :
    remove data key = Except.ok data := by
  unfold remove
  rcases h with h | h
  · simp [h]
  · simp [h]

theorem remove_absent_key_noop_witness :
    remove c8Tree "foo/baz" = Except.ok c8Tree :=
  remove_absent_key_noop c8Tree "foo/baz" (Or.inr rfl)

/-- C2: a fetch call with a missing key or a missing url resolves
immediately with the status 400 response and no data, and the transport is
never invoked. -/
theorem publicFetch_missing_key_or_url_400
    (key url : Option String) (value : JSVal) (now : Int)
    (opts : FetchOptions) (outcome : LoadOutcome)
    (h : key = none ∨ url = none) :
    publicFetch key url value now opts outcome =
      (.resolved badRequest, ⟨false, 0, 0⟩) := by
  rcases h with h | h
  · subst h; cases url <;> rfl
  · subst h; cases key <;> rfl

theorem publicFetch_missing_key_or_url_400_witness :
    publicFetch none (some "u") (JSVal.str "v") 0 ⟨true, true, true, true⟩
      (.failure 500) = (.resolved badRequest, ⟨false, 0, 0⟩) :=
  publicFetch_missing_key_or_url_400 none (some "u") (JSVal.str "v") 0
    ⟨true, true, true, true⟩ (.failure 500) (Or.inl rfl)

/-- C3: code bug in hasExpired — the comparison reads the expiry RECORD
OBJECT itself (`obj[expiresKey]` is the record of §3, not its expires
field), so `Date.now() > obj[expiresKey]` is the JS number-versus-object
comparison and is always false: a value whose record says expires = 0 is,
at time 1000, still treated as fresh and no load is issued, where the claim
(with the spec and the repository's own tests) requires a transport load. -/
theorem hasExpired_record_object_never_stale :
    hasExpired c3Value EXPIRES_KEY 1000 = false ∧
    fetch c3Value 1000 ⟨false, false, false, false⟩ (.failure 500) =
      (.resolved ⟨0, none, statusHeaders 200, c3Value⟩, ⟨false, 0, 0⟩) :=
  ⟨rfl, rfl⟩

/-- C4 counterexample: a fetch call whose load fails (status 404) but where
a stale value exists and staleWhileRevalidate is set resolves with the
status 200 stale response — no error field, no failure status, and the
stale value as data although staleIfError is unset — and it stays resolved
although rejectOnError is true, since the promise settled before the load
did.  This refutes the claim for such calls. -/
theorem publicFetch_failed_load_swr_counterexample :
    hasExpired staleValue EXPIRES_KEY 100 = true ∧
    (publicFetch (some "k") (some "u") staleValue 100 ⟨false, true, false, true⟩
        (.failure 404)).1 =
      .resolved ⟨0, none, statusHeaders 200, staleValue⟩ :=
  ⟨rfl, rfl⟩

/-- C4 amended: for every fetch call whose load fails and which awaits the
load (no truthy stale value being served via staleWhileRevalidate), the
promise rejects exactly when options.rejectOnError is true, and otherwise
resolves with duration 0, the error, headers carrying the failure status,
and as data the previous stale value when options.staleIfError is set and
null when it is not. -/
theorem publicFetch_failed_load_rejects_iff
    (key url : String) (value : JSVal) (now s : Int) (opts : FetchOptions)
    (hmiss : (!truthy value || hasExpired value EXPIRES_KEY now) = true)
    (hswr : (truthy value && opts.staleWhileRevalidate) = false) :
    ((∃ e, (publicFetch (some key) (some url) value now opts (.failure s)).1 =
        .rejected e) ↔ opts.rejectOnError = true) ∧
    (opts.rejectOnError = false →
      (publicFetch (some key) (some url) value now opts (.failure s)).1 =
        .resolved ⟨0, some s, statusHeaders s,
          if opts.staleIfError then value else .null⟩) := by
  obtain ⟨rl, swr, sie, roe⟩ := opts
  simp only at hswr
  cases roe
  · constructor
    · simp [publicFetch, fetch, hmiss, hswr, loadResponse]
    · intro _
      simp [publicFetch, fetch, hmiss, hswr, loadResponse]
  · constructor
    · simp [publicFetch, fetch, hmiss, hswr, loadResponse]
    · intro hfalse
      exact absurd hfalse (by simp)

theorem publicFetch_failed_load_rejects_iff_witness :
    (publicFetch (some "k") (some "u") JSVal.undefined 0 ⟨false, false, false, false⟩
        (.failure 503)).1 =
      .resolved ⟨0, some 503, statusHeaders 503, .null⟩ := by
  have h := publicFetch_failed_load_rejects_iff "k" "u" JSVal.undefined 0 503
    ⟨false, false, false, false⟩ rfl rfl
  simpa using h.2 rfl

/-- C5: when a stale (expired, hence present) value exists at the key and
staleWhileRevalidate is set, fetch resolves at once with duration 0,
headers carrying status 200 and the stale value as data — the same response
whatever the load later does — while the load is still issued. -/
theorem fetch_stale_swr_resolves_immediately
    (value : JSVal) (now : Int) (opts : FetchOptions) (outcome : LoadOutcome)
    (hexp : hasExpired value EXPIRES_KEY now = true)
    (hswr : opts.staleWhileRevalidate = true) :
    (fetch value now opts outcome).1 =
      .resolved ⟨0, none, statusHeaders 200, value⟩ ∧
    (fetch value now opts outcome).2.loadInvoked = true := by
  have ht : truthy value = true := truthy_of_hasExpired value EXPIRES_KEY now hexp
  constructor <;> simp [fetch, hexp, ht, hswr]

theorem fetch_stale_swr_resolves_immediately_witness :
    (fetch staleValue 100 ⟨true, true, false, false⟩ (.failure 503)).1 =
      .resolved ⟨0, none, statusHeaders 200, staleValue⟩ :=
  (fetch_stale_swr_resolves_immediately staleValue 100 ⟨true, true, false, false⟩
    (.failure 503) rfl rfl).1

/-- C6 counterexample: the code tests presence by JS truthiness, so a
present but falsy stored value — here the boolean false, which is not
undefined and carries no expiry record — is treated as missing and the
transport IS invoked, refuting "the transport is never invoked" for a
present, unexpired stored value. -/
theorem fetch_present_falsy_value_loads :
    (JSVal.bool false ≠ JSVal.undefined) ∧
    hasField (JSVal.bool false) EXPIRES_KEY = false ∧
    (fetch (.bool false) 0 ⟨false, false, false, false⟩
        (.success 1 (statusHeaders 200) (.num 7))).2.loadInvoked = true :=
  ⟨fun h => JSVal.noConfusion h, rfl, rfl⟩

/-- C6 amended: for every fetch call on a key whose stored value is truthy
and not expired — either the expiry field holds a record object whose
expires stamp lies in the future, or the value has no expiry field — the
transport is never invoked and the promise resolves with duration 0,
headers carrying status 200 and the stored value as data. -/
theorem fetch_fresh_value_no_load
    (value : JSVal) (now : Int) (opts : FetchOptions) (outcome : LoadOutcome)
    (ht : truthy value = true)
    (hfresh : hasField value EXPIRES_KEY = false ∨
      (∃ fs, getField value EXPIRES_KEY = JSVal.obj fs ∧
        ∃ e, fieldGet fs "expires" = JSVal.num e ∧ now < e)) :
    fetch value now opts outcome =
      (.resolved ⟨0, none, statusHeaders 200, value⟩,
        ⟨false, if opts.reload then 1 else 0, 0⟩) := by
  have hexp : hasExpired value EXPIRES_KEY now = false := by
    rcases hfresh with h | ⟨fs, hfs, _⟩
    · simp [hasExpired, h]
    · simp [hasExpired, jsGreater, hfs, toNumber]
  simp [fetch, ht, hexp]

theorem fetch_fresh_value_no_load_witness :
    fetch freshValue 1000 ⟨true, false, false, false⟩ (.failure 500) =
      (.resolved ⟨0, none, statusHeaders 200, freshValue⟩, ⟨false, 1, 0⟩) := by
  have h := fetch_fresh_value_no_load freshValue 1000 ⟨true, false, false, false⟩
    (.failure 500) rfl (Or.inl rfl)
  simpa using h

/-- C7 counterexample: with a stale value, staleWhileRevalidate and reload
set, and a load failing with status 404 (below 500), fetch still schedules
one reload — synchronously, before resolving — although the load did not
succeed, its status is below 500 and the stored value was not fresh.  This
refutes both the "exactly when" and "a failure with status < 500 schedules
no reload". -/
theorem fetch_reload_on_4xx_counterexample :
    hasExpired staleValue EXPIRES_KEY 100 = true ∧
    (fetch staleValue 100 ⟨true, true, false, false⟩
        (.failure 404)).2.reloadSync = 1 ∧
    (fetch staleValue 100 ⟨true, true, false, false⟩
        (.failure 404)).2.reloadOnSettle = 0 :=
  ⟨rfl, rfl, rfl⟩

/-- C7 amended: a background reload is scheduled exactly when options.reload
is set and either the load succeeded, or the load failed with status at
least 500, or the stored value was fresh, or a truthy stale value was being
served with staleWhileRevalidate set (the synchronous scheduling of the
stale-while-revalidate path — in which case the settle-time reload may add a
second scheduling); a failure with status below 500 never schedules a
settle-time reload. -/
theorem fetch_reload_scheduling
    (value : JSVal) (now : Int) (opts : FetchOptions) (outcome : LoadOutcome) :
    (0 < totalReloads (fetch value now opts outcome).2 ↔
      opts.reload = true ∧
        (reloadEligible outcome = true ∨
          (truthy value = true ∧ hasExpired value EXPIRES_KEY now = false) ∨
          (truthy value = true ∧ hasExpired value EXPIRES_KEY now = true ∧
            opts.staleWhileRevalidate = true))) ∧
    (∀ s : Int, outcome = .failure s → s < 500 →
      (fetch value now opts outcome).2.reloadOnSettle = 0) := by
  obtain ⟨rl, swr, sie, roe⟩ := opts
  constructor
  · cases ht : truthy value <;> cases hexp : hasExpired value EXPIRES_KEY now <;>
      cases he : reloadEligible outcome <;> cases rl <;> cases swr <;>
      simp [fetch, totalReloads, ht, hexp, he]
  · intro s hs hlt
    subst hs
    have hde : decide (500 ≤ s) = false := decide_eq_false (by omega)
    cases ht : truthy value <;> cases hexp : hasExpired value EXPIRES_KEY now <;>
      cases rl <;> cases swr <;>
      simp [fetch, reloadEligible, ht, hexp, hde]

theorem fetch_reload_scheduling_witness :
    (fetch (JSVal.str "v") 0 ⟨true, false, false, false⟩
      (.failure 404)).2.reloadOnSettle = 0 :=
  (fetch_reload_scheduling (JSVal.str "v") 0 ⟨true, false, false, false⟩
    (.failure 404)).2 404 rfl (by omega)

/-- C9: with a stale value at the key and both staleWhileRevalidate and
reload set, and a load that settles successfully or with a failure of
status at least 500, the reload scheduler is invoked twice for the key:
once synchronously before the promise resolves and once more when the
background load settles. -/
theorem fetch_swr_reload_twice
    (value : JSVal) (now : Int) (opts : FetchOptions) (outcome : LoadOutcome)
    (hexp : hasExpired value EXPIRES_KEY now = true)
    (hswr : opts.staleWhileRevalidate = true)
    (hrl : opts.reload = true)
    (helig : reloadEligible outcome = true) :
    (fetch value now opts outcome).2.reloadSync = 1 ∧
    (fetch value now opts outcome).2.reloadOnSettle = 1 := by
  have ht : truthy value = true := truthy_of_hasExpired value EXPIRES_KEY now hexp
  constructor <;> simp [fetch, ht, hexp, hswr, hrl, helig]

theorem fetch_swr_reload_twice_witness :
    (fetch staleValue 100 ⟨true, true, false, false⟩
        (.failure 503)).2.reloadSync = 1 ∧
    (fetch staleValue 100 ⟨true, true, false, false⟩
        (.failure 503)).2.reloadOnSettle = 1 :=
  fetch_swr_reload_twice staleValue 100 ⟨true, true, false, false⟩ (.failure 503)
    rfl rfl rfl rfl

/-- C10: with no value at the key, a failing load, rejectOnError false and
staleIfError set, the resolved data field is undefined (the absent value
itself), whereas with staleIfError unset it is null. -/
theorem publicFetch_missing_stale_if_error_undef
    (key url : String) (now s : Int) (rl swr : Bool) :
    (publicFetch (some key) (some url) .undefined now ⟨rl, swr, true, false⟩
        (.failure s)).1 =
      .resolved ⟨0, some s, statusHeaders s, .undefined⟩ ∧
    (publicFetch (some key) (some url) .undefined now ⟨rl, swr, false, false⟩
        (.failure s)).1 =
      .resolved ⟨0, some s, statusHeaders s, .null⟩ := by
  constructor <;> simp [publicFetch, fetch, loadResponse, truthy]

end DataStore
